import Mathlib

/-
  Verification of the startup/validation sequence of `src/main.py`.

  The program's effects are made explicit in a shallow embedding:
  * the process environment (`os.environ`) is an association list of
    string key/value pairs, read via `getenv` (= `os.getenv`) and
    written via `setenv` (= `os.environ[k] = v`);
  * `load_dotenv(env_path, override=True)` is `applyDotenv`: it folds the
    bindings found in the `.env` file over the environment, overriding
    existing keys (the file's contents are a parameter, since the file
    itself is outside the process);
  * the process-wide logger is modelled by the list of records a call
    emits, each record a level/message pair;
  * a raised exception (`OSError("PASSWORD environment variable not set")`,
    called `ConfigError` in the design documents) is an error result.
-/

/-- A process environment: key/value bindings of strings, first match wins. -/
abbrev Env : Type := List (String × String)

/-- `os.getenv k`: the value of the first binding of `k`, if any. -/
def getenv : Env → String → Option String
  | [], _ => none
  | (k', v') :: rest, k => if k' = k then some v' else getenv rest k

/-- `os.environ[k] = v`: replace the first binding of `k`, or append one. -/
def setenv : Env → String → String → Env
  | [], k, v => [(k, v)]
  | (k', v') :: rest, k, v =>
      if k' = k then (k, v) :: rest else (k', v') :: setenv rest k v

/-- `load_dotenv(env_path, override=True)`: set every binding of the `.env`
file in order, overriding existing values. -/
def applyDotenv (dotenv : List (String × String)) (e : Env) : Env :=
  dotenv.foldl (fun acc p => setenv acc p.1 p.2) e

/-- The two log levels `main` uses (`logger.error` / `logger.info`). -/
inductive LogLevel : Type
  | info
  | error
  deriving DecidableEq, Repr

/-- One record handed to the logger: its level and its message text. -/
abbrev LogRecord : Type := LogLevel × String

/-- The raised error (`OSError` in the source, `ConfigError` in the design
documents): it carries the message string. -/
structure ConfigError : Type where
  msg : String
  deriving DecidableEq, Repr

/-- Outcome of a call: a returned value, or a raised `ConfigError`. -/
inductive VResult (α : Type) : Type
  | ok (v : α)
  | err (e : ConfigError)
  deriving DecidableEq

/-- `hay` contains `needle` as a substring. -/
def containsStr (needle hay : String) : Prop :=
  ∃ s t, hay = s ++ needle ++ t

/-- `def add_func(x, y): return x + y`. Python's `int | float` arguments are
modelled as rationals (exact values of ints and of decimal literals). -/
def add_func (x y : ℚ) : ℚ :=
  x + y

/-- `def multiply(a, b): return a * b`. -/
def multiply (a b : ℚ) : ℚ :=
  a * b

/-- `df = pd.DataFrame(np.array(range(1, 10)).reshape(3, 3))`:
the 3×3 table of the integers 1..9. -/
def df : List (List Int) :=
  [[1, 2, 3], [4, 5, 6], [7, 8, 9]]

/-- The second table: four students with two mark columns. -/
structure StudentTable : Type where
  name : List String
  maths : List Int
  science : List Int
  deriving DecidableEq

/-- `df2 = pd.DataFrame(data)` with the literal `data` dictionary. -/
def df2 : StudentTable :=
  { name := ["Martha", "Tim", "Rob", "Georgia"]
    maths := [87, 91, 97, 95]
    science := [83, 99, 84, 76] }

/-- Stand-in for pandas' textual rendering of `df` (`logger.info(df)` logs
the frame's text; no claim depends on the exact formatting). -/
def renderDf (rows : List (List Int)) : String :=
  toString rows

/-- Stand-in for pandas' textual rendering of `df2`. -/
def renderStudents (t : StudentTable) : String :=
  toString t.name ++ toString t.maths ++ toString t.science

/-- The inlined validation block of `main` (lines 42-48), the
`validate_required_value` contract of the design documents specialised to
the key `PASSWORD`: look the key up; if absent, emit one error record and
raise; if present, emit one info record and return the value. -/
def validate_required_value (e : Env) : VResult String × List LogRecord :=
  match getenv e "PASSWORD" with
  | none =>
      (VResult.err ⟨"PASSWORD environment variable not set"⟩,
        [(LogLevel.error, "PASSWORD environment variable not set")])
  | some v =>
      (VResult.ok v, [(LogLevel.info, "Password loaded")])

/-- Everything observable about one call to `main`: the returned exit code
or raised error, the log records emitted, the environment afterwards, and
the dataframes constructed (none when the call raised before reaching
their construction). -/
structure MainResult : Type where
  result : VResult Int
  logs : List LogRecord
  envAfter : Env
  df : Option (List (List Int))
  df2 : Option StudentTable
  deriving DecidableEq

/-- The body of `main` after the `load_dotenv` step, acting on the
already-loaded environment `e`: validate `PASSWORD`; on failure the raised
error propagates, cutting execution after the single error log; on success
build both dataframes, emit the four further info records, and return 0. -/
def mainAfterLoad (e : Env) : MainResult :=
  match validate_required_value e with
  | (VResult.err x, logs) =>
      { result := VResult.err x
        logs := logs
        envAfter := e
        df := none
        df2 := none }
  | (VResult.ok _, logs) =>
      { result := VResult.ok 0
        logs := logs ++
          [(LogLevel.info, "Second dataframe created"),
           (LogLevel.info, toString (add_func 2 3)),
           (LogLevel.info, renderDf df),
           (LogLevel.info, renderStudents df2)]
        envAfter := e
        df := some df
        df2 := some df2 }

/-- `def main() -> int`: load the `.env` file over the environment
(`override=True`), then run the rest of the body. (Named `main'` because
`main` is reserved in Lean.) -/
def main' (dotenv : List (String × String)) (e : Env) : MainResult :=
  mainAfterLoad (applyDotenv dotenv e)

/-- The five records `main` emits on the success path, in order. -/
def successLogs : List LogRecord :=
  [(LogLevel.info, "Password loaded"),
   (LogLevel.info, "Second dataframe created"),
   (LogLevel.info, toString (add_func 2 3)),
   (LogLevel.info, renderDf df),
   (LogLevel.info, renderStudents df2)]

/-- One override step of `load_dotenv`, seen through `getenv k`: a binding
of `k` replaces the accumulator, any other binding leaves it. -/
def overrideStep (k : String) (acc : Option String) (p : String × String) :
    Option String :=
  if p.1 = k then some p.2 else acc

/-! ### Lemmas about the environment model -/

theorem getenv_setenv_self (e : Env) (k v : String) :
    getenv (setenv e k v) k = some v := by
  induction e with
  | nil => simp [setenv, getenv]
  | cons p rest ih =>
      obtain ⟨k', v'⟩ := p
      by_cases h : k' = k <;> simp [setenv, getenv, h, ih]

theorem getenv_setenv_ne (e : Env) (k k' v : String) (h : k ≠ k') :
    getenv (setenv e k v) k' = getenv e k' := by
  induction e with
  | nil => simp [setenv, getenv, h]
  | cons p rest ih =>
      obtain ⟨k₀, v₀⟩ := p
      by_cases h₀ : k₀ = k
      · subst h₀
        simp [setenv, getenv, h]
      · simp [setenv, getenv, h₀, ih]

theorem getenv_applyDotenv (d : List (String × String)) (e : Env)
    (k : String) :
    getenv (applyDotenv d e) k = d.foldl (overrideStep k) (getenv e k) := by
  induction d generalizing e with
  | nil => rfl
  | cons p d ih =>
      show getenv (applyDotenv d (setenv e p.1 p.2)) k = _
      rw [ih (setenv e p.1 p.2)]
      show _ = List.foldl (overrideStep k) (overrideStep k (getenv e k) p) d
      by_cases h : p.1 = k
      · subst h
        rw [getenv_setenv_self]
        simp [overrideStep]
      · rw [getenv_setenv_ne _ _ _ _ h]
        simp [overrideStep, h]

theorem foldl_overrideStep_idem (d : List (String × String)) (k : String)
    (a : Option String) :
    d.foldl (overrideStep k) (d.foldl (overrideStep k) a) =
      d.foldl (overrideStep k) a := by
  induction d generalizing a with
  | nil => rfl
  | cons p d ih =>
      simp only [List.foldl_cons]
      by_cases h : p.1 = k
      · have hstep : ∀ b : Option String, overrideStep k b p = some p.2 := by
          intro b
          simp [overrideStep, h]
        simp only [hstep]
      · have hstep : ∀ b : Option String, overrideStep k b p = b := by
          intro b
          simp [overrideStep, h]
        simp only [hstep]
        exact ih a

theorem getenv_applyDotenv_twice (d : List (String × String)) (e : Env)
    (k : String) :
    getenv (applyDotenv d (applyDotenv d e)) k =
      getenv (applyDotenv d e) k := by
  rw [getenv_applyDotenv, getenv_applyDotenv, foldl_overrideStep_idem]

theorem getenv_applyDotenv_of_not_bound (d : List (String × String))
    (e : Env) (k : String) (h : ∀ p ∈ d, p.1 ≠ k) :
    getenv (applyDotenv d e) k = getenv e k := by
  rw [getenv_applyDotenv]
  induction d with
  | nil => rfl
  | cons p d ih =>
      have hp : p.1 ≠ k := h p (List.mem_cons_self p d)
      simp only [List.foldl_cons, overrideStep, hp, ite_false]
      exact ih fun q hq => h q (List.mem_cons_of_mem p hq)

theorem isSome_foldl_overrideStep (d : List (String × String)) (k : String)
    (a : Option String) (h : a.isSome) :
    (d.foldl (overrideStep k) a).isSome := by
  induction d generalizing a with
  | nil => exact h
  | cons p d ih =>
      simp only [List.foldl_cons, overrideStep]
      by_cases hp : p.1 = k
      · rw [if_pos hp]
        exact ih _ rfl
      · rw [if_neg hp]
        exact ih _ h

theorem isSome_getenv_applyDotenv (d : List (String × String)) (e : Env)
    (k : String) (h : (getenv e k).isSome) :
    (getenv (applyDotenv d e) k).isSome := by
  rw [getenv_applyDotenv]
  exact isSome_foldl_overrideStep d k _ h

/-! ### Shape of one call to `main` -/

theorem envAfter_mainAfterLoad (e : Env) : (mainAfterLoad e).envAfter = e := by
  cases h : getenv e "PASSWORD" <;>
    simp [mainAfterLoad, validate_required_value, h]

theorem mainAfterLoad_of_none (e : Env)
    (h : getenv e "PASSWORD" = none) :
    mainAfterLoad e =
      ⟨VResult.err ⟨"PASSWORD environment variable not set"⟩,
        [(LogLevel.error, "PASSWORD environment variable not set")],
        e, none, none⟩ := by
  simp [mainAfterLoad, validate_required_value, h]

theorem mainAfterLoad_of_some (e : Env) (v : String)
    (h : getenv e "PASSWORD" = some v) :
    mainAfterLoad e = ⟨VResult.ok 0, successLogs, e, some df, some df2⟩ := by
  simp [mainAfterLoad, validate_required_value, h, successLogs]

/-! ### The claims -/

/-- Claim C1: whenever the environment has no binding for the required key
`PASSWORD` (and the external `.env` file does not supply one either),
`main` fails with a `ConfigError` whose message includes `PASSWORD`, and
its log output holds exactly one error-level record, whose message
contains the key name. -/
theorem password_missing_fails_with_single_error_log
    (d : List (String × String)) (e : Env)
    (henv : getenv e "PASSWORD" = none)
    (hd : ∀ p ∈ d, p.1 ≠ "PASSWORD") :
    (main' d e).result =
      VResult.err ⟨"PASSWORD environment variable not set"⟩ ∧
    containsStr "PASSWORD" "PASSWORD environment variable not set" ∧
    (main' d e).logs.filter (fun r => r.1 == LogLevel.error) =
      [(LogLevel.error, "PASSWORD environment variable not set")] := by
  have hg : getenv (applyDotenv d e) "PASSWORD" = none := by
    rw [getenv_applyDotenv_of_not_bound d e _ hd]
    exact henv
  have hm : main' d e =
      ⟨VResult.err ⟨"PASSWORD environment variable not set"⟩,
        [(LogLevel.error, "PASSWORD environment variable not set")],
        applyDotenv d e, none, none⟩ :=
    mainAfterLoad_of_none _ hg
  refine ⟨?_, ⟨"", " environment variable not set", rfl⟩, ?_⟩
  · rw [hm]
  · rw [hm]
    rfl

theorem password_missing_fails_witness :
    (main' [] []).result =
      VResult.err ⟨"PASSWORD environment variable not set"⟩ ∧
    containsStr "PASSWORD" "PASSWORD environment variable not set" ∧
    (main' [] []).logs.filter (fun r => r.1 == LogLevel.error) =
      [(LogLevel.error, "PASSWORD environment variable not set")] :=
  password_missing_fails_with_single_error_log [] [] rfl (by simp)

/-- Claim C2: whenever the environment binds `PASSWORD` to a value `v`,
the validation call succeeds and returns `v`, emitting the single
informational record. -/
theorem password_present_returns_value (e : Env) (v : String)
    (h : getenv e "PASSWORD" = some v) :
    validate_required_value e =
      (VResult.ok v, [(LogLevel.info, "Password loaded")]) := by
  simp [validate_required_value, h]

theorem password_present_returns_value_witness :
    validate_required_value [("PASSWORD", "secret")] =
      (VResult.ok "secret", [(LogLevel.info, "Password loaded")]) :=
  password_present_returns_value [("PASSWORD", "secret")] "secret" (by decide)

/-- Claim C3: every call to the validator emits exactly one log record: a
single `INFO` record on success and a single `ERROR` record, with the
fixed template naming the key, on failure. -/
theorem validator_emits_exactly_one_record (e : Env) :
    (validate_required_value e).2.length = 1 ∧
    ((∃ v, validate_required_value e =
        (VResult.ok v, [(LogLevel.info, "Password loaded")])) ∨
      validate_required_value e =
        (VResult.err ⟨"PASSWORD environment variable not set"⟩,
          [(LogLevel.error, "PASSWORD environment variable not set")])) := by
  cases h : getenv e "PASSWORD" with
  | none =>
      exact ⟨by simp [validate_required_value, h],
        Or.inr (by simp [validate_required_value, h])⟩
  | some v =>
      exact ⟨by simp [validate_required_value, h],
        Or.inl ⟨v, by simp [validate_required_value, h]⟩⟩

/-- Claim C4, counterexample: `main` does not leave the environment
unchanged for every starting environment — with a `.env` file binding
`PASSWORD` to `"x"` and an initially empty environment, the environment
after the call holds that binding (`load_dotenv` runs with
`override=True` and writes into the process environment). -/
theorem main_mutates_env_when_dotenv_binds :
    (main' [("PASSWORD", "x")] []).envAfter ≠ [] := by
  have h : (main' [("PASSWORD", "x")] []).envAfter = [("PASSWORD", "x")] :=
    envAfter_mainAfterLoad _
  rw [h]
  decide

/-- Claim C4, amended: the validation itself reads the environment
without writing to it — every environment change made by `main` comes
from the `load_dotenv` step, so the environment after a call is exactly
the loaded environment, and when the `.env` file supplies no bindings the
environment after the call equals the environment before it. -/
theorem env_changed_only_by_dotenv_load (d : List (String × String))
    (e : Env) :
    (main' d e).envAfter = applyDotenv d e ∧ (main' [] e).envAfter = e :=
  ⟨envAfter_mainAfterLoad _, envAfter_mainAfterLoad e⟩

/-- Claim C5: running `main` a second time on the environment state the
first call left behind yields the same outcome: same returned value or
error, same log records, same dataframe construction — there is no
caching or hidden state distinguishing the repeated call. -/
theorem repeated_call_same_result (d : List (String × String)) (e : Env) :
    (main' d (main' d e).envAfter).result = (main' d e).result ∧
    (main' d (main' d e).envAfter).logs = (main' d e).logs ∧
    (main' d (main' d e).envAfter).df = (main' d e).df ∧
    (main' d (main' d e).envAfter).df2 = (main' d e).df2 := by
  have he : (main' d e).envAfter = applyDotenv d e := envAfter_mainAfterLoad _
  rw [he]
  have hg : getenv (applyDotenv d (applyDotenv d e)) "PASSWORD" =
      getenv (applyDotenv d e) "PASSWORD" := getenv_applyDotenv_twice d e _
  cases h : getenv (applyDotenv d e) "PASSWORD" with
  | none =>
      have h1 : main' d (applyDotenv d e) =
          ⟨VResult.err ⟨"PASSWORD environment variable not set"⟩,
            [(LogLevel.error, "PASSWORD environment variable not set")],
            applyDotenv d (applyDotenv d e), none, none⟩ :=
        mainAfterLoad_of_none _ (hg.trans h)
      have h2 : main' d e =
          ⟨VResult.err ⟨"PASSWORD environment variable not set"⟩,
            [(LogLevel.error, "PASSWORD environment variable not set")],
            applyDotenv d e, none, none⟩ :=
        mainAfterLoad_of_none _ h
      rw [h1, h2]
      exact ⟨rfl, rfl, rfl, rfl⟩
  | some v =>
      have h1 : main' d (applyDotenv d e) =
          ⟨VResult.ok 0, successLogs, applyDotenv d (applyDotenv d e),
            some df, some df2⟩ :=
        mainAfterLoad_of_some _ v (hg.trans h)
      have h2 : main' d e =
          ⟨VResult.ok 0, successLogs, applyDotenv d e, some df, some df2⟩ :=
        mainAfterLoad_of_some _ v h
      rw [h1, h2]
      exact ⟨rfl, rfl, rfl, rfl⟩

/-- Claim C6: when the required value is missing, `main` never recovers,
retries or substitutes a default — it surfaces the failure to the caller
as a raised error, never as a returned exit code. -/
theorem missing_value_always_raises (d : List (String × String)) (e : Env)
    (h : getenv (applyDotenv d e) "PASSWORD" = none) :
    (main' d e).result =
      VResult.err ⟨"PASSWORD environment variable not set"⟩ ∧
    ∀ n : Int, (main' d e).result ≠ VResult.ok n := by
  have hm : main' d e =
      ⟨VResult.err ⟨"PASSWORD environment variable not set"⟩,
        [(LogLevel.error, "PASSWORD environment variable not set")],
        applyDotenv d e, none, none⟩ :=
    mainAfterLoad_of_none _ h
  refine ⟨?_, ?_⟩
  · rw [hm]
  · intro n
    rw [hm]
    simp

theorem missing_value_always_raises_witness :
    (main' [] []).result =
      VResult.err ⟨"PASSWORD environment variable not set"⟩ ∧
    (main' [] []).result ≠ VResult.ok 0 :=
  ⟨(missing_value_always_raises [] [] rfl).1,
    (missing_value_always_raises [] [] rfl).2 0⟩

/-- Claim C7: whenever validation succeeds — the loaded environment binds
`PASSWORD` — `main` runs to completion and returns exit code 0. -/
theorem validation_success_returns_zero (d : List (String × String))
    (e : Env) (v : String)
    (h : getenv (applyDotenv d e) "PASSWORD" = some v) :
    (main' d e).result = VResult.ok 0 := by
  have hm : main' d e =
      ⟨VResult.ok 0, successLogs, applyDotenv d e, some df, some df2⟩ :=
    mainAfterLoad_of_some _ v h
  rw [hm]

theorem validation_success_returns_zero_witness :
    (main' [] [("PASSWORD", "secret")]).result = VResult.ok 0 :=
  validation_success_returns_zero [] [("PASSWORD", "secret")] "secret"
    (by decide)

/-- Claim C8: an empty string bound to `PASSWORD` counts as present — the
check tests only whether the lookup yielded anything, not whether the
value is non-empty — so `main` emits the informational record first and
returns 0 instead of raising. -/
theorem empty_password_counts_as_present (d : List (String × String))
    (e : Env) (h : getenv e "PASSWORD" = some "") :
    (main' d e).result = VResult.ok 0 ∧
    (main' d e).logs.head? = some (LogLevel.info, "Password loaded") := by
  have hs : (getenv (applyDotenv d e) "PASSWORD").isSome :=
    isSome_getenv_applyDotenv d e _ (by rw [h]; rfl)
  obtain ⟨w, hw⟩ := Option.isSome_iff_exists.mp hs
  have hm : main' d e =
      ⟨VResult.ok 0, successLogs, applyDotenv d e, some df, some df2⟩ :=
    mainAfterLoad_of_some _ w hw
  rw [hm]
  exact ⟨rfl, rfl⟩

theorem empty_password_counts_as_present_witness :
    (main' [] [("PASSWORD", "")]).result = VResult.ok 0 ∧
    (main' [] [("PASSWORD", "")]).logs.head? =
      some (LogLevel.info, "Password loaded") :=
  empty_password_counts_as_present [] [("PASSWORD", "")] (by decide)

/-- Claim C9: on the failure path `main` does nothing beyond the single
error log — its log output is exactly that one record, and neither
dataframe is constructed before the exception propagates. -/
theorem failure_path_only_error_log (d : List (String × String)) (e : Env)
    (h : getenv (applyDotenv d e) "PASSWORD" = none) :
    (main' d e).logs =
      [(LogLevel.error, "PASSWORD environment variable not set")] ∧
    (main' d e).df = none ∧ (main' d e).df2 = none := by
  have hm : main' d e =
      ⟨VResult.err ⟨"PASSWORD environment variable not set"⟩,
        [(LogLevel.error, "PASSWORD environment variable not set")],
        applyDotenv d e, none, none⟩ :=
    mainAfterLoad_of_none _ h
  rw [hm]
  exact ⟨rfl, rfl, rfl⟩

theorem failure_path_only_error_log_witness :
    (main' [] []).logs =
      [(LogLevel.error, "PASSWORD environment variable not set")] ∧
    (main' [] []).df = none ∧ (main' [] []).df2 = none :=
  failure_path_only_error_log [] [] rfl

/-- Claim C10: `add_func` returns the sum of its arguments and `multiply`
their product, so both helpers are commutative in their two arguments. -/
theorem add_func_multiply_correct (x y a b : ℚ) :
    add_func x y = x + y ∧ multiply a b = a * b ∧
    add_func x y = add_func y x ∧ multiply a b = multiply b a :=
  ⟨rfl, rfl, add_comm x y, mul_comm a b⟩
